import Mathlib

/-!
Verification of the capture/zeroing core of the Ultrasound-GUI application
(`mainwindow.cpp` / `mainwindow.h`), as a shallow embedding.

Modelling conventions, matched against the C++ source:

* `double` values entering arithmetic (`fps`, `duration`) are embedded as `ℚ`;
  all concrete values used below are exactly representable, so no rounding
  discrepancy with IEEE doubles arises at these points.
* Qt's `qRound` rounds half away from zero (`int(d + 0.5)` for `d >= 0`),
  embedded as `qRound` below.
* The `QFile`/`QTextStream` CSV sink is modelled by a list of `FileRec`s (one
  per file the program created, in creation order) plus `csvOpenIdx`, the index
  the member `csvFile` is currently open on.  `QFile::setFileName` on an open
  file closes it first (Qt behaviour), modelled by `setCsvFileName`.
* Each `QTimer` created by `on_btnStart_clicked` is a `Timer` entry; the member
  pointer `csvTimer` always designates the last entry.  `deleteLater` on the
  old timer is modelled by deactivating it (a stopped timer never fires again).
  A `tickTimer i` event on an inactive or non-existent timer is a no-op, which
  is how Qt's disarmed timers behave.
* Timestamps, the progress bar, `qDebug` output and the best-effort Pico
  trigger byte do not influence any of the verified properties and are omitted
  from the state; a CSV row records the six numeric columns.
* Serial input is modelled as the list of characters delivered to one
  `readData` call (the function-local static buffer is empty on entry and
  cleared on exit, so each call processes exactly the newly arrived bytes).
* The `lastRaw` field records the raw integers of the last successfully parsed
  frame; it is the observer for "the true raw sensor reading".
-/

namespace UltrasoundGui

/-- Qt's `qRound`: round half away from zero (`mainwindow.cpp:107,147`). -/
def qRound (x : ℚ) : ℤ := if 0 ≤ x then ⌊x + 1/2⌋ else ⌈x - 1/2⌉

/-- Errors the start path can report via message boxes
(`mainwindow.cpp:100-104` and `mainwindow.cpp:351-354`). -/
inductive StartError where
  | InvalidParameters : StartError
  | CsvOpenFailed : StartError
deriving Repr, DecidableEq

/-- One `QTimer` created at `mainwindow.cpp:122` together with the mutable
`framesCaptured` counter and the `totalFrames` bound captured by its lambda
(`mainwindow.cpp:123-144`). -/
structure Timer where
  active : Bool
  framesCaptured : Nat
  totalFrames : Nat
deriving Repr, DecidableEq

/-- One CSV data row as written by `writeCsvData` (`mainwindow.cpp:378-384`);
the timestamp column is environment-dependent and omitted. -/
structure CsvRow where
  topLeft : Int
  topRight : Int
  botLeft : Int
  topLeftWoZero : Int
  topRightWoZero : Int
  botLeftWoZero : Int
deriving Repr, DecidableEq

/-- One file created by `startCsvRecording` (`mainwindow.cpp:343-360`). -/
structure FileRec where
  isOpen : Bool
  headerWritten : Bool
  rows : List CsvRow
deriving Repr, DecidableEq

/-- The `MainWindow` state relevant to capture, zeroing and parsing:
zero offsets (`mainwindow.h:54-56`), the three displayed LCD values,
`csvRunning` (`mainwindow.h:48`), the files created so far with the index the
member `csvFile` is open on, the timers created so far (`csvTimer` is the last
entry), and the raw integers of the last successfully parsed frame. -/
structure AppState where
  zeroTopLeft : Int
  zeroTopRight : Int
  zeroBotLeft : Int
  dispTopLeft : Int
  dispTopRight : Int
  dispBotLeft : Int
  csvRunning : Bool
  files : List FileRec
  csvOpenIdx : Option Nat
  timers : List Timer
  lastRaw : Option (Int × Int × Int)
deriving Repr, DecidableEq

/-- State after the constructor (`mainwindow.cpp:11-34`): offsets zero,
LCD displays showing 0, no recording, no file, no timer. -/
def initialState : AppState :=
  { zeroTopLeft := 0, zeroTopRight := 0, zeroBotLeft := 0
    dispTopLeft := 0, dispTopRight := 0, dispBotLeft := 0
    csvRunning := false, files := [], csvOpenIdx := none, timers := []
    lastRaw := none }

/-- Mark the file at an index closed. -/
def closeAt : Nat → List FileRec → List FileRec
  | _, [] => []
  | 0, f :: fs => { f with isOpen := false } :: fs
  | k + 1, f :: fs => f :: closeAt k fs

/-- Append a row to the file at an index. -/
def appendRowAt : Nat → CsvRow → List FileRec → List FileRec
  | _, _, [] => []
  | 0, r, f :: fs => { f with rows := f.rows ++ [r] } :: fs
  | k + 1, r, f :: fs => f :: appendRowAt k r fs

/-- Replace the timer at an index. -/
def setTimerAt : Nat → Timer → List Timer → List Timer
  | _, _, [] => []
  | 0, t, _ :: ts => t :: ts
  | k + 1, t, u :: ts => u :: setTimerAt k t ts

/-- Look up the timer at an index. -/
def nthTimer (i : Nat) (ts : List Timer) : Option Timer :=
  match ts, i with
  | [], _ => none
  | t :: _, 0 => some t
  | _ :: rest, k + 1 => nthTimer k rest

/-- Deactivate the last timer in the list, i.e. the one `csvTimer` points to;
the empty case is the `if (csvTimer)` null check. -/
def setLastInactive : List Timer → List Timer
  | [] => []
  | [t] => [{ t with active := false }]
  | t :: ts => t :: setLastInactive ts

/-- Close `csvFile` if it is open. -/
def closeCsvFile (s : AppState) : AppState :=
  match s.csvOpenIdx with
  | none => s
  | some k => { s with files := closeAt k s.files, csvOpenIdx := none }

/-- `QFile::setFileName` (`mainwindow.cpp:349`): Qt closes the file first if it
is currently open, then retargets the (not yet created) new name. -/
def setCsvFileName (s : AppState) : AppState := closeCsvFile s

/-- `MainWindow::startCsvRecording` (`mainwindow.cpp:343-360`): retarget the
file name, try to open; on success write the header line and set `csvRunning`;
on failure report the error and return, leaving `csvRunning` untouched.
`openOk` is the environment's answer to `QFile::open`. -/
def startCsvRecording (openOk : Bool) (s : AppState) : AppState :=
  let s1 := setCsvFileName s
  if openOk then
    { s1 with
      files := s1.files ++ [{ isOpen := true, headerWritten := true, rows := [] }]
      csvOpenIdx := some s1.files.length
      csvRunning := true }
  else s1

/-- `MainWindow::stopCsvRecording` (`mainwindow.cpp:363-369`): clear
`csvRunning`, close the file if open. -/
def stopCsvRecording (s : AppState) : AppState :=
  closeCsvFile { s with csvRunning := false }

/-- The row `writeCsvData` would emit in state `s` (`mainwindow.cpp:378-384`):
displayed values, then displayed value plus the current zero offset. -/
def currentRow (s : AppState) : CsvRow :=
  { topLeft := s.dispTopLeft
    topRight := s.dispTopRight
    botLeft := s.dispBotLeft
    topLeftWoZero := s.dispTopLeft + s.zeroTopLeft
    topRightWoZero := s.dispTopRight + s.zeroTopRight
    botLeftWoZero := s.dispBotLeft + s.zeroBotLeft }

/-- `MainWindow::writeCsvData` (`mainwindow.cpp:372-387`): no-op unless
`csvRunning` and the file is open; otherwise append one row. -/
def writeCsvData (s : AppState) : AppState :=
  if s.csvRunning then
    match s.csvOpenIdx with
    | some k => { s with files := appendRowAt k (currentRow s) s.files }
    | none => s
  else s

/-- Stop the timer `csvTimer` points to, guarded by its null check
(`mainwindow.cpp:116-119` and `mainwindow.cpp:161-163`). -/
def stopLastTimer (s : AppState) : AppState :=
  { s with timers := setLastInactive s.timers }

/-- `MainWindow::on_btnStart_clicked` (`mainwindow.cpp:93-156`): validate
`fps`/`duration`, compute `totalFrames = qRound(fps*duration)`, call
`startCsvRecording`, stop and discard any existing timer, then create and arm
a fresh timer with `framesCaptured = 0`.  The returned `Option StartError` is
the message box shown, if any.  Note that a CSV open failure does NOT abort
this function: only `startCsvRecording` returns early. -/
def on_btnStart_clicked (fps duration : ℚ) (openOk : Bool) (s : AppState) :
    AppState × Option StartError :=
  if fps ≤ 0 ∨ duration ≤ 0 then (s, some StartError.InvalidParameters)
  else
    let totalFrames := (qRound (fps * duration)).toNat
    let s1 := startCsvRecording openOk s
    let s2 := stopLastTimer s1
    let s3 := { s2 with
      timers := s2.timers ++ [{ active := true, framesCaptured := 0, totalFrames := totalFrames }] }
    (s3, if openOk then none else some StartError.CsvOpenFailed)

/-- The timer interval computed at `mainwindow.cpp:147`:
`qMax(1, qRound(1000.0 / fps))`. -/
def intervalMs (fps : ℚ) : ℤ := max 1 (qRound (1000 / fps))

/-- Modelled from the spec: `intervalMs = max(1, round(1000 / fps))` with
round-half-away-from-zero, for comparison with the source's `intervalMs`. -/
def spec_intervalMs (fps : ℚ) : ℤ := max 1 (qRound (1000 / fps))

/-- One firing of the timeout lambda of timer `i` (`mainwindow.cpp:126-144`):
if the frame budget is exhausted, stop this timer and stop recording (writing
nothing); otherwise write one CSV row and increment this timer's counter.
Firing an inactive or deleted timer is a no-op (Qt never delivers it). -/
def tickTimer (i : Nat) (s : AppState) : AppState :=
  match nthTimer i s.timers with
  | none => s
  | some t =>
    if t.active then
      if t.totalFrames ≤ t.framesCaptured then
        stopCsvRecording { s with timers := setTimerAt i { t with active := false } s.timers }
      else
        let s1 := writeCsvData s
        { s1 with
          timers := setTimerAt i { t with framesCaptured := t.framesCaptured + 1 } s1.timers }
    else s

/-- `MainWindow::on_btnStop_clicked` (`mainwindow.cpp:159-165`). -/
def on_btnStop_clicked (s : AppState) : AppState :=
  stopCsvRecording (stopLastTimer s)

/-- `MainWindow::on_btnZero_clicked` (`mainwindow.cpp:270-276`): add each
currently displayed value to the corresponding zero offset. -/
def on_btnZero_clicked (s : AppState) : AppState :=
  { s with
    zeroBotLeft := s.zeroBotLeft + s.dispBotLeft
    zeroTopLeft := s.zeroTopLeft + s.dispTopLeft
    zeroTopRight := s.zeroTopRight + s.dispTopRight }

/-- Split a character list at commas, keeping empty parts, mirroring
`QString::split(",")` at `mainwindow.cpp:248`. -/
def splitCommaAux : List Char → List Char → List (List Char)
  | [], acc => [acc.reverse]
  | c :: cs, acc =>
    if c = ',' then acc.reverse :: splitCommaAux cs []
    else splitCommaAux cs (c :: acc)

/-- Split at commas (`QString::split(",")`). -/
def splitComma (cs : List Char) : List (List Char) := splitCommaAux cs []

/-- ASCII whitespace recognised by `QString::trimmed` / number parsing. -/
def isSpaceChar (c : Char) : Bool :=
  c = ' ' ∨ c = '\t' ∨ c = '\n' ∨ c = '\r'

/-- `QString::trimmed` (`mainwindow.cpp:247`): strip surrounding whitespace. -/
def trimChars (cs : List Char) : List Char :=
  ((cs.dropWhile isSpaceChar).reverse.dropWhile isSpaceChar).reverse

/-- Value of a decimal digit, if the character is one. -/
def digitVal (c : Char) : Option Nat :=
  if '0' ≤ c ∧ c ≤ '9' then some (c.toNat - ('0').toNat) else none

/-- Accumulate a decimal number over a digit list; fails on a non-digit. -/
def digitsValAux : List Char → Nat → Option Nat
  | [], acc => some acc
  | c :: cs, acc =>
    match digitVal c with
    | some d => digitsValAux cs (acc * 10 + d)
    | none => none

/-- A non-empty all-digit list as a number. -/
def digitsVal : List Char → Option Nat
  | [] => none
  | c :: cs => digitsValAux (c :: cs) 0

/-- `QString::toInt` (`mainwindow.cpp:254-256`): optional sign followed by
decimal digits, surrounding whitespace tolerated; `none` on anything else
(the C++ reports failure through the `ok` out-parameter). -/
def qstringToInt (item : List Char) : Option Int :=
  match trimChars item with
  | '+' :: cs => (digitsVal cs).map (fun n => (n : Int))
  | '-' :: cs => (digitsVal cs).map (fun n => -(n : Int))
  | cs => (digitsVal cs).map (fun n => (n : Int))

/-- The frame-resolution step of `readData` (`mainwindow.cpp:247-259`):
trim, split at commas, require exactly three items, convert each with
`toInt`; the source order is `botLeft, topLeft, topRight`. -/
def parseFrame (input : List Char) : Option (Int × Int × Int) :=
  match splitComma (trimChars input) with
  | [a, b, c] =>
    match qstringToInt a, qstringToInt b, qstringToInt c with
    | some botLeft, some topLeft, some topRight => some (botLeft, topLeft, topRight)
    | _, _, _ => none
  | _ => none

/-- `MainWindow::readData` (`mainwindow.cpp:238-267`) on one delivered chunk:
on a parseable frame, display the three zero-adjusted values; otherwise leave
everything unchanged (no display update, no error surfaced). -/
def readData (input : List Char) (s : AppState) : AppState :=
  match parseFrame input with
  | some (botLeft, topLeft, topRight) =>
    { s with
      dispBotLeft := botLeft - s.zeroBotLeft
      dispTopLeft := topLeft - s.zeroTopLeft
      dispTopRight := topRight - s.zeroTopRight
      lastRaw := some (botLeft, topLeft, topRight) }
  | none => s

/-- Number of timers currently armed. -/
def activeTimerCount (s : AppState) : Nat :=
  (s.timers.filter (fun t => t.active)).length

/-- Number of files currently open. -/
def openFileCount (s : AppState) : Nat :=
  (s.files.filter (fun f => f.isOpen)).length

/-- Total number of CSV data rows ever written, over all files. -/
def totalRows (s : AppState) : Nat :=
  (s.files.map (fun f => f.rows.length)).sum

/-- Rows of the first file ever created, if any. -/
def firstFileRows (s : AppState) : Option (List CsvRow) :=
  s.files.head?.map (fun f => f.rows)

/-- The spec's `Idle`: no armed timer, sink closed, not recording. -/
def isIdle (s : AppState) : Prop :=
  activeTimerCount s = 0 ∧ openFileCount s = 0 ∧ s.csvRunning = false

/-- Apply a sequence of tick events (timer indices) in order. -/
def applyTicks (ids : List Nat) (s : AppState) : AppState :=
  ids.foldl (fun st i => tickTimer i st) s

/-- Apply `k` ticks of timer `i`. -/
def iterTick (i : Nat) : Nat → AppState → AppState
  | 0, s => s
  | k + 1, s => tickTimer i (iterTick i k s)

/-- The row written while displays and offsets are all zero. -/
def row0 : CsvRow :=
  { topLeft := 0, topRight := 0, botLeft := 0
    topLeftWoZero := 0, topRightWoZero := 0, botLeftWoZero := 0 }

/-- The state after a successful fresh start with target `n` followed by `j`
in-budget ticks: one open file with header and `j` rows, one armed timer. -/
def runningState (j n : Nat) : AppState :=
  { zeroTopLeft := 0, zeroTopRight := 0, zeroBotLeft := 0
    dispTopLeft := 0, dispTopRight := 0, dispBotLeft := 0
    csvRunning := true
    files := [⟨true, true, List.replicate j row0⟩]
    csvOpenIdx := some 0
    timers := [⟨true, j, n⟩]
    lastRaw := none }

/-- The state after a fresh `n`-frame session runs to natural completion. -/
def completedState (n : Nat) : AppState :=
  { zeroTopLeft := 0, zeroTopRight := 0, zeroBotLeft := 0
    dispTopLeft := 0, dispTopRight := 0, dispBotLeft := 0
    csvRunning := false
    files := [⟨false, true, List.replicate n row0⟩]
    csvOpenIdx := none
    timers := [⟨false, n, n⟩]
    lastRaw := none }

/-- The state after pressing Stop at `j` rows of a planned `n`-row session. -/
def stoppedState (j n : Nat) : AppState :=
  { zeroTopLeft := 0, zeroTopRight := 0, zeroBotLeft := 0
    dispTopLeft := 0, dispTopRight := 0, dispBotLeft := 0
    csvRunning := false
    files := [⟨false, true, List.replicate j row0⟩]
    csvOpenIdx := none
    timers := [⟨false, j, n⟩]
    lastRaw := none }

/-- The state after a second successful start interrupts the first session at
`j` rows: the old file is closed with its `j` rows, the old timer is disarmed,
and one fresh open file and armed timer exist. -/
def twoSessionState (j n1 n2 : Nat) : AppState :=
  { zeroTopLeft := 0, zeroTopRight := 0, zeroBotLeft := 0
    dispTopLeft := 0, dispTopRight := 0, dispBotLeft := 0
    csvRunning := true
    files := [⟨false, true, List.replicate j row0⟩, ⟨true, true, []⟩]
    csvOpenIdx := some 1
    timers := [⟨false, j, n1⟩, ⟨true, 0, n2⟩]
    lastRaw := none }

/-- The state after a start from `initialState` whose CSV open failed:
no file was created, `csvRunning` is still false, but a timer WAS armed. -/
def failedStartState (n : Nat) : AppState :=
  { zeroTopLeft := 0, zeroTopRight := 0, zeroBotLeft := 0
    dispTopLeft := 0, dispTopRight := 0, dispBotLeft := 0
    csvRunning := false
    files := []
    csvOpenIdx := none
    timers := [⟨true, 0, n⟩]
    lastRaw := none }

/-- The sensor-facing part of the state: offsets, displays, last raw frame. -/
def sensorPart (s : AppState) :
    Int × Int × Int × Int × Int × Int × Option (Int × Int × Int) :=
  (s.zeroTopLeft, s.zeroTopRight, s.zeroBotLeft,
   s.dispTopLeft, s.dispTopRight, s.dispBotLeft, s.lastRaw)

/-- Frame with three integers: `50,50,50`. -/
def frameRaw505050 : List Char := ['5', '0', ',', '5', '0', ',', '5', '0']

/-- Frame `0,50,0`: the topLeft axis reads 50. -/
def frameRaw50 : List Char := ['0', ',', '5', '0', ',', '0']

/-- Frame `0,70,0`: the topLeft axis reads 70. -/
def frameRaw70 : List Char := ['0', ',', '7', '0', ',', '0']

/-- The malformed frame `12,ab,7` of the spec example. -/
def malformedFrame : List Char := ['1', '2', ',', 'a', 'b', ',', '7']

/-- Zeroing-scenario trace: a frame reading 50 on the topLeft axis arrives. -/
def zeroTrace1 : AppState := readData frameRaw50 initialState

/-- Zeroing-scenario trace: first Zero press. -/
def zeroTrace2 : AppState := on_btnZero_clicked zeroTrace1

/-- Zeroing-scenario trace: the next frame, still reading 50. -/
def zeroTrace3 : AppState := readData frameRaw50 zeroTrace2

/-- Zeroing-scenario trace: the raw reading changes to 70. -/
def zeroTrace4 : AppState := readData frameRaw70 zeroTrace3

/-- Zeroing-scenario trace: second Zero press. -/
def zeroTrace5 : AppState := on_btnZero_clicked zeroTrace4

theorem qRound_eq (x : ℚ) (k : ℤ) (h0 : 0 ≤ x) (h1 : (k : ℚ) ≤ x + 1/2)
    (h2 : x + 1/2 < k + 1) : qRound x = k := by
  rw [qRound, if_pos h0]
  exact Int.floor_eq_iff.mpr ⟨h1, by exact_mod_cast h2⟩

theorem start_pos_idle (fps dur : ℚ) (n : Nat) (h1 : 0 < fps) (h2 : 0 < dur)
    (hn : n = (qRound (fps * dur)).toNat) :
    on_btnStart_clicked fps dur true initialState = (runningState 0 n, none) := by
  subst hn
  rw [on_btnStart_clicked, if_neg (by push_neg; exact ⟨h1, h2⟩)]
  rfl

theorem start_fail_idle (fps dur : ℚ) (n : Nat) (h1 : 0 < fps) (h2 : 0 < dur)
    (hn : n = (qRound (fps * dur)).toNat) :
    on_btnStart_clicked fps dur false initialState =
      (failedStartState n, some StartError.CsvOpenFailed) := by
  subst hn
  rw [on_btnStart_clicked, if_neg (by push_neg; exact ⟨h1, h2⟩)]
  rfl

theorem start_pos_running (fps dur : ℚ) (j n1 n2 : Nat) (h1 : 0 < fps) (h2 : 0 < dur)
    (hn : n2 = (qRound (fps * dur)).toNat) :
    on_btnStart_clicked fps dur true (runningState j n1) = (twoSessionState j n1 n2, none) := by
  subst hn
  rw [on_btnStart_clicked, if_neg (by push_neg; exact ⟨h1, h2⟩)]
  rfl

theorem tick_run (j n : Nat) (h : j < n) :
    tickTimer 0 (runningState j n) = runningState (j + 1) n := by
  have hle : ¬ n ≤ j := Nat.not_le.mpr h
  simp [tickTimer, nthTimer, runningState, writeCsvData, appendRowAt, setTimerAt, hle,
    currentRow]
  exact (List.replicate_succ' j _).symm

theorem tick_done (n : Nat) :
    tickTimer 0 (runningState n n) = completedState n := by
  simp [tickTimer, nthTimer, runningState, completedState, stopCsvRecording, closeCsvFile,
    closeAt, setTimerAt]

theorem iter_run (j n : Nat) (h : j ≤ n) :
    iterTick 0 j (runningState 0 n) = runningState j n := by
  induction j with
  | zero => rfl
  | succ k ih =>
    have hk : k ≤ n := Nat.le_of_succ_le h
    rw [iterTick, ih hk, tick_run k n (Nat.lt_of_succ_le h)]

theorem stop_run (j n : Nat) :
    on_btnStop_clicked (runningState j n) = stoppedState j n := rfl

theorem tick_sensorPart (i : Nat) (s : AppState) :
    sensorPart (tickTimer i s) = sensorPart s := by
  unfold tickTimer
  cases ht : nthTimer i s.timers with
  | none => rfl
  | some t =>
    by_cases ha : t.active
    · simp only [ha, if_true]
      by_cases hb : t.totalFrames ≤ t.framesCaptured
      · simp only [hb, if_true]
        simp [stopCsvRecording, closeCsvFile, sensorPart]
        cases s.csvOpenIdx <;> simp
      · simp only [hb, if_false]
        simp [writeCsvData, sensorPart]
        cases hc : s.csvRunning <;> simp
        cases s.csvOpenIdx <;> simp
    · simp [ha]

theorem tick_nofiles (i : Nat) (s : AppState) (h1 : s.files = []) (h2 : s.csvOpenIdx = none) :
    (tickTimer i s).files = [] ∧ (tickTimer i s).csvOpenIdx = none := by
  unfold tickTimer
  cases ht : nthTimer i s.timers with
  | none => exact ⟨h1, h2⟩
  | some t =>
    by_cases ha : t.active
    · simp only [ha, if_true]
      by_cases hb : t.totalFrames ≤ t.framesCaptured
      · simp [hb, stopCsvRecording, closeCsvFile, h1, h2]
      · simp [hb, writeCsvData, h1, h2]
    · simp [ha, h1, h2]

theorem tick_safe (R : List CsvRow) (i : Nat) (s : AppState)
    (h1 : s.csvOpenIdx ≠ some 0) (h2 : firstFileRows s = some R) :
    (tickTimer i s).csvOpenIdx ≠ some 0 ∧ firstFileRows (tickTimer i s) = some R := by
  unfold tickTimer
  cases ht : nthTimer i s.timers with
  | none => exact ⟨h1, h2⟩
  | some t =>
    by_cases ha : t.active
    · simp only [ha, if_true]
      by_cases hb : t.totalFrames ≤ t.framesCaptured
      · simp only [hb, if_true]
        cases hf : s.files with
        | nil => simp [firstFileRows, hf] at h2
        | cons f fs =>
          cases hi : s.csvOpenIdx with
          | none =>
            constructor
            · simp [stopCsvRecording, closeCsvFile, hi]
            · simpa [stopCsvRecording, closeCsvFile, hi, firstFileRows, hf] using h2
          | some k =>
            cases k with
            | zero => exact absurd hi h1
            | succ m =>
              constructor
              · simp [stopCsvRecording, closeCsvFile, hi]
              · simpa [stopCsvRecording, closeCsvFile, hi, hf, closeAt, firstFileRows] using h2
      · simp only [hb, if_false]
        cases hf : s.files with
        | nil => simp [firstFileRows, hf] at h2
        | cons f fs =>
          cases hc : s.csvRunning with
          | false =>
            constructor
            · simpa [writeCsvData, hc] using h1
            · simpa [writeCsvData, hc, firstFileRows, hf] using h2
          | true =>
            cases hi : s.csvOpenIdx with
            | none =>
              constructor
              · simp [writeCsvData, hc, hi]
              · simpa [writeCsvData, hc, hi, firstFileRows, hf] using h2
            | some k =>
              cases k with
              | zero => exact absurd hi h1
              | succ m =>
                constructor
                · simp [writeCsvData, hc, hi]
                · simpa [writeCsvData, hc, hi, hf, appendRowAt, firstFileRows] using h2
    · simp only [ha, if_false]
      exact ⟨h1, h2⟩

theorem applyTicks_cons (i : Nat) (ids : List Nat) (s : AppState) :
    applyTicks (i :: ids) s = applyTicks ids (tickTimer i s) := rfl

theorem applyTicks_nofiles (ids : List Nat) (s : AppState)
    (h1 : s.files = []) (h2 : s.csvOpenIdx = none) :
    (applyTicks ids s).files = [] := by
  induction ids generalizing s with
  | nil => exact h1
  | cons i ids ih =>
    rw [applyTicks_cons]
    obtain ⟨g1, g2⟩ := tick_nofiles i s h1 h2
    exact ih _ g1 g2

theorem applyTicks_safe (R : List CsvRow) (ids : List Nat) (s : AppState)
    (h1 : s.csvOpenIdx ≠ some 0) (h2 : firstFileRows s = some R) :
    firstFileRows (applyTicks ids s) = some R := by
  induction ids generalizing s with
  | nil => exact h2
  | cons i ids ih =>
    rw [applyTicks_cons]
    obtain ⟨g1, g2⟩ := tick_safe R i s h1 h2
    exact ih _ g1 g2

theorem qRound_toNat_eq (x : ℚ) (k : Nat) (h0 : 0 ≤ x) (h1 : (k : ℚ) ≤ x + 1/2)
    (h2 : x + 1/2 < k + 1) : (qRound x).toNat = k := by
  rw [qRound_eq x k h0 (by exact_mod_cast h1) (by exact_mod_cast h2)]
  exact Int.toNat_natCast k

theorem sensorPart_fields {s1 s2 : AppState} (h : sensorPart s1 = sensorPart s2) :
    s1.zeroTopLeft = s2.zeroTopLeft ∧ s1.zeroTopRight = s2.zeroTopRight ∧
    s1.zeroBotLeft = s2.zeroBotLeft ∧ s1.dispTopLeft = s2.dispTopLeft ∧
    s1.dispTopRight = s2.dispTopRight ∧ s1.dispBotLeft = s2.dispBotLeft ∧
    s1.lastRaw = s2.lastRaw := by
  simpa [sensorPart, Prod.ext_iff] using h

theorem applyTicks_sensorPart (ids : List Nat) (s : AppState) :
    sensorPart (applyTicks ids s) = sensorPart s := by
  induction ids generalizing s with
  | nil => rfl
  | cons i ids ih => rw [applyTicks_cons, ih, tick_sensorPart]



-- ==== C6 ====
/-- C6: start with nonpositive fps or duration reports InvalidParameters and
returns the state untouched: no file created or opened, no timer armed. -/
theorem invalidParamsNoChange (fps dur : ℚ) (openOk : Bool) (s : AppState)
    (h : fps ≤ 0 ∨ dur ≤ 0) :
    on_btnStart_clicked fps dur openOk s = (s, some StartError.InvalidParameters) := by
  rw [on_btnStart_clicked, if_pos h]

theorem invalidParamsNoChangeInst :
    on_btnStart_clicked 0 5 true initialState =
      (initialState, some StartError.InvalidParameters) :=
  invalidParamsNoChange 0 5 true initialState (Or.inl (le_refl 0))

-- ==== C9 ====
/-- C9: the tick interval is max(1, round(1000/fps)); 1 at fps=1000000, 2000 at fps=0.5. -/
theorem intervalMsMatchesSpec :
    (∀ fps : ℚ, 0 < fps → intervalMs fps = spec_intervalMs fps) ∧
    intervalMs 1000000 = 1 ∧ intervalMs (1/2) = 2000 := by
  refine ⟨fun fps _ => rfl, ?_, ?_⟩
  · rw [intervalMs, qRound_eq (1000/1000000 : ℚ) 0 (by norm_num) (by norm_num) (by norm_num)]
    decide
  · rw [intervalMs, qRound_eq (1000/(1/2) : ℚ) 2000 (by norm_num) (by norm_num) (by norm_num)]
    decide

theorem intervalMsMatchesSpecInst :
    intervalMs 4 = spec_intervalMs 4 ∧ intervalMs 1000000 = 1 :=
  ⟨intervalMsMatchesSpec.1 4 (by norm_num), intervalMsMatchesSpec.2.1⟩

-- ==== C10 ====
/-- C10: Zero changes only the offsets; displays move only on a valid frame. -/
theorem zeroLeavesDisplaysUnchanged :
    (∀ s : AppState, on_btnZero_clicked s =
      { s with zeroBotLeft := s.zeroBotLeft + s.dispBotLeft
               zeroTopLeft := s.zeroTopLeft + s.dispTopLeft
               zeroTopRight := s.zeroTopRight + s.dispTopRight }) ∧
    (∀ s : AppState,
      (on_btnZero_clicked s).dispTopLeft = s.dispTopLeft ∧
      (on_btnZero_clicked s).dispTopRight = s.dispTopRight ∧
      (on_btnZero_clicked s).dispBotLeft = s.dispBotLeft) ∧
    (∀ (s : AppState) (input : List Char), parseFrame input = none → readData input s = s) := by
  refine ⟨fun s => rfl, fun s => ⟨rfl, rfl, rfl⟩, fun s input h => ?_⟩
  rw [readData, h]

theorem zeroLeavesDisplaysUnchangedInst :
    (on_btnZero_clicked initialState).dispTopLeft = initialState.dispTopLeft ∧
    readData (['a', 'b']) initialState = initialState :=
  ⟨(zeroLeavesDisplaysUnchanged.2.1 initialState).1,
   zeroLeavesDisplaysUnchanged.2.2 initialState (['a', 'b']) (by decide)⟩

-- ==== C8 ====
/-- C8: a frame that does not resolve to three integers leaves the state
exactly as it was; `12,ab,7` is such a frame. -/
theorem malformedFrameKeepsState :
    (∀ (s : AppState) (input : List Char), parseFrame input = none → readData input s = s) ∧
    parseFrame malformedFrame = none := by
  refine ⟨fun s input h => ?_, by decide⟩
  rw [readData, h]

theorem malformedFrameKeepsStateInst :
    readData malformedFrame initialState = initialState :=
  malformedFrameKeepsState.1 initialState malformedFrame malformedFrameKeepsState.2



-- ==== C4 ====
/-- C4 counterexample: after raw 50, zero (offset 50), displayed 0, raw 70
(displayed 20), the second zero stores offset 50+20 = 70, not 120 as claimed. -/
theorem secondZeroGivesSeventy :
    zeroTrace1.dispTopLeft = 50 ∧ zeroTrace2.zeroTopLeft = 50 ∧
    zeroTrace3.dispTopLeft = 0 ∧ zeroTrace4.dispTopLeft = 20 ∧
    zeroTrace5.zeroTopLeft = 70 ∧ ¬ zeroTrace5.zeroTopLeft = 120 := by
  decide

/-- C4 amended: zeroing adds the currently displayed value to the stored
offset and compounds; in the scenario the second zero yields offset 70
(= 50 + 20) and, once the next frame at raw 70 is parsed, displayed 0. -/
theorem zeroAddsDisplayedToOffset :
    (∀ s : AppState,
      (on_btnZero_clicked s).zeroTopLeft = s.zeroTopLeft + s.dispTopLeft ∧
      (on_btnZero_clicked s).zeroTopRight = s.zeroTopRight + s.dispTopRight ∧
      (on_btnZero_clicked s).zeroBotLeft = s.zeroBotLeft + s.dispBotLeft) ∧
    zeroTrace1.dispTopLeft = 50 ∧ zeroTrace2.zeroTopLeft = 50 ∧
    zeroTrace3.dispTopLeft = 0 ∧ zeroTrace4.dispTopLeft = 20 ∧
    zeroTrace5.zeroTopLeft = 70 ∧
    (readData frameRaw70 zeroTrace5).dispTopLeft = 0 :=
  ⟨fun s => ⟨rfl, rfl, rfl⟩, by decide⟩

-- ==== C1 ====
/-- C1 counterexample: with fps=1, duration=1 and a failing CSV open, the
error is reported but the start is NOT aborted: a timer is armed. -/
theorem csvOpenFailedArmsTimer :
    (on_btnStart_clicked 1 1 false initialState).2 = some StartError.CsvOpenFailed ∧
    activeTimerCount (on_btnStart_clicked 1 1 false initialState).1 = 1 := by
  rw [start_fail_idle 1 1 ((qRound ((1:ℚ) * 1)).toNat) (by norm_num) (by norm_num) rfl]
  exact ⟨rfl, rfl⟩

/-- C1 amended: on CSV open failure the error is reported and no recording
session begins — `csvRunning` stays false, no file exists or is open, and no
tick ever writes a row — but the timer IS armed and ticks do fire. -/
theorem csvOpenFailedNoRows (fps dur : ℚ) (n : Nat) (h1 : 0 < fps) (h2 : 0 < dur)
    (hn : n = (qRound (fps * dur)).toNat) :
    on_btnStart_clicked fps dur false initialState =
      (failedStartState n, some StartError.CsvOpenFailed) ∧
    (failedStartState n).csvRunning = false ∧
    (failedStartState n).files = [] ∧
    openFileCount (failedStartState n) = 0 ∧
    activeTimerCount (failedStartState n) = 1 ∧
    ∀ ids : List Nat, (applyTicks ids (failedStartState n)).files = [] :=
  ⟨start_fail_idle fps dur n h1 h2 hn, rfl, rfl, rfl, rfl,
   fun ids => applyTicks_nofiles ids _ rfl rfl⟩

theorem csvOpenFailedNoRowsInst :
    on_btnStart_clicked 1 1 false initialState =
      (failedStartState 1, some StartError.CsvOpenFailed) ∧
    (applyTicks ([0, 0, 0]) (failedStartState 1)).files = [] :=
  ⟨(csvOpenFailedNoRows 1 1 1 (by norm_num) (by norm_num)
      (qRound_toNat_eq ((1:ℚ) * 1) 1 (by norm_num) (by norm_num) (by norm_num)).symm).1,
   (csvOpenFailedNoRows 1 1 1 (by norm_num) (by norm_num)
      (qRound_toNat_eq ((1:ℚ) * 1) 1 (by norm_num) (by norm_num) (by norm_num)).symm).2.2.2.2.2
     ([0, 0, 0])⟩

-- ==== C2 ====
/-- C2: a successful start with fps,duration > 0, left to run, writes exactly
`n = qRound(fps*duration)` data rows after the header and returns to Idle by
itself; the budget check precedes any write, so the final tick writes nothing. -/
theorem naturalCompletionRowCount (fps dur : ℚ) (n : Nat)
    (h1 : 0 < fps) (h2 : 0 < dur) (hn : n = (qRound (fps * dur)).toNat) :
    iterTick 0 (n + 1) (on_btnStart_clicked fps dur true initialState).1 = completedState n ∧
    (completedState n).files = [⟨false, true, List.replicate n row0⟩] ∧
    totalRows (completedState n) = n ∧
    totalRows (iterTick 0 (n + 1) (on_btnStart_clicked fps dur true initialState).1) =
      totalRows (iterTick 0 n (on_btnStart_clicked fps dur true initialState).1) ∧
    isIdle (completedState n) := by
  have hs : (on_btnStart_clicked fps dur true initialState).1 = runningState 0 n := by
    rw [start_pos_idle fps dur n h1 h2 hn]
  have hrun : iterTick 0 n (runningState 0 n) = runningState n n := iter_run n n (le_refl n)
  have hfin : iterTick 0 (n + 1) (runningState 0 n) = completedState n := by
    rw [iterTick, hrun, tick_done]
  refine ⟨by rw [hs, hfin], rfl, ?_, ?_, rfl, rfl, rfl⟩
  · simp [totalRows, completedState]
  · rw [hs, hfin, hrun]
    simp [totalRows, completedState, runningState]

theorem naturalCompletionRowCountInst :
    iterTick 0 3 (on_btnStart_clicked 2 1 true initialState).1 = completedState 2 ∧
    totalRows (completedState 2) = 2 :=
  ⟨(naturalCompletionRowCount 2 1 2 (by norm_num) (by norm_num)
      (qRound_toNat_eq ((2:ℚ) * 1) 2 (by norm_num) (by norm_num) (by norm_num)).symm).1,
   (naturalCompletionRowCount 2 1 2 (by norm_num) (by norm_num)
      (qRound_toNat_eq ((2:ℚ) * 1) 2 (by norm_num) (by norm_num) (by norm_num)).symm).2.2.1⟩


-- ==== C7 ====
/-- C7: Stop pressed after j of n planned rows leaves exactly j rows, closes
the file, disarms the timer; any tick delivered afterwards is a no-op, and
stopping again (or stopping while Idle) changes nothing. -/
theorem stopIsImmediateAndIdempotent (fps dur : ℚ) (j n : Nat)
    (h1 : 0 < fps) (h2 : 0 < dur) (hn : n = (qRound (fps * dur)).toNat) (hj : j < n) :
    on_btnStop_clicked (iterTick 0 j (on_btnStart_clicked fps dur true initialState).1) =
      stoppedState j n ∧
    totalRows (stoppedState j n) = j ∧
    (∀ i : Nat, tickTimer i (stoppedState j n) = stoppedState j n) ∧
    on_btnStop_clicked (stoppedState j n) = stoppedState j n ∧
    on_btnStop_clicked initialState = initialState ∧
    isIdle (stoppedState j n) := by
  have hs : (on_btnStart_clicked fps dur true initialState).1 = runningState 0 n := by
    rw [start_pos_idle fps dur n h1 h2 hn]
  refine ⟨?_, ?_, ?_, rfl, rfl, rfl, rfl, rfl⟩
  · rw [hs, iter_run j n (Nat.le_of_lt hj), stop_run]
  · simp [totalRows, stoppedState]
  · intro i
    cases i with
    | zero => rfl
    | succ m => simp [tickTimer, nthTimer]

theorem stopIsImmediateAndIdempotentInst :
    on_btnStop_clicked (iterTick 0 3 (on_btnStart_clicked 10 1 true initialState).1) =
      stoppedState 3 10 ∧
    totalRows (stoppedState 3 10) = 3 ∧
    tickTimer 0 (stoppedState 3 10) = stoppedState 3 10 :=
  ⟨(stopIsImmediateAndIdempotent 10 1 3 10 (by norm_num) (by norm_num)
      (qRound_toNat_eq ((10:ℚ) * 1) 10 (by norm_num) (by norm_num) (by norm_num)).symm
      (by norm_num)).1,
   (stopIsImmediateAndIdempotent 10 1 3 10 (by norm_num) (by norm_num)
      (qRound_toNat_eq ((10:ℚ) * 1) 10 (by norm_num) (by norm_num) (by norm_num)).symm
      (by norm_num)).2.1,
   (stopIsImmediateAndIdempotent 10 1 3 10 (by norm_num) (by norm_num)
      (qRound_toNat_eq ((10:ℚ) * 1) 10 (by norm_num) (by norm_num) (by norm_num)).symm
      (by norm_num)).2.2.1 0⟩

-- ==== C3 ====
/-- C3: starting again while Running yields exactly one armed timer and one
open file; the first session's timer is disarmed (its tick is a no-op) and the
old file keeps exactly its j rows under any further tick activity. -/
theorem restartTearsDownOldSession (fps1 dur1 fps2 dur2 : ℚ) (j n1 n2 : Nat)
    (ha1 : 0 < fps1) (ha2 : 0 < dur1) (hb1 : 0 < fps2) (hb2 : 0 < dur2)
    (hn1 : n1 = (qRound (fps1 * dur1)).toNat) (hn2 : n2 = (qRound (fps2 * dur2)).toNat)
    (hj : j < n1) :
    (on_btnStart_clicked fps2 dur2 true
        (iterTick 0 j (on_btnStart_clicked fps1 dur1 true initialState).1)).1 =
      twoSessionState j n1 n2 ∧
    activeTimerCount (twoSessionState j n1 n2) = 1 ∧
    openFileCount (twoSessionState j n1 n2) = 1 ∧
    tickTimer 0 (twoSessionState j n1 n2) = twoSessionState j n1 n2 ∧
    ∀ ids : List Nat, firstFileRows (applyTicks ids (twoSessionState j n1 n2)) =
      some (List.replicate j row0) := by
  have hs1 : (on_btnStart_clicked fps1 dur1 true initialState).1 = runningState 0 n1 := by
    rw [start_pos_idle fps1 dur1 n1 ha1 ha2 hn1]
  refine ⟨?_, rfl, rfl, rfl, ?_⟩
  · rw [hs1, iter_run j n1 (Nat.le_of_lt hj),
      start_pos_running fps2 dur2 j n1 n2 hb1 hb2 hn2]
  · intro ids
    refine applyTicks_safe (List.replicate j row0) ids (twoSessionState j n1 n2) ?_ rfl
    simp [twoSessionState]

theorem restartTearsDownOldSessionInst :
    (on_btnStart_clicked 3 1 true
        (iterTick 0 2 (on_btnStart_clicked 5 1 true initialState).1)).1 =
      twoSessionState 2 5 3 ∧
    activeTimerCount (twoSessionState 2 5 3) = 1 ∧
    firstFileRows (applyTicks ([1, 1]) (twoSessionState 2 5 3)) =
      some (List.replicate 2 row0) :=
  ⟨(restartTearsDownOldSession 5 1 3 1 2 5 3 (by norm_num) (by norm_num) (by norm_num)
      (by norm_num)
      (qRound_toNat_eq ((5:ℚ) * 1) 5 (by norm_num) (by norm_num) (by norm_num)).symm
      (qRound_toNat_eq ((3:ℚ) * 1) 3 (by norm_num) (by norm_num) (by norm_num)).symm
      (by norm_num)).1,
   (restartTearsDownOldSession 5 1 3 1 2 5 3 (by norm_num) (by norm_num) (by norm_num)
      (by norm_num)
      (qRound_toNat_eq ((5:ℚ) * 1) 5 (by norm_num) (by norm_num) (by norm_num)).symm
      (qRound_toNat_eq ((3:ℚ) * 1) 3 (by norm_num) (by norm_num) (by norm_num)).symm
      (by norm_num)).2.1,
   (restartTearsDownOldSession 5 1 3 1 2 5 3 (by norm_num) (by norm_num) (by norm_num)
      (by norm_num)
      (qRound_toNat_eq ((5:ℚ) * 1) 5 (by norm_num) (by norm_num) (by norm_num)).symm
      (qRound_toNat_eq ((3:ℚ) * 1) 3 (by norm_num) (by norm_num) (by norm_num)).symm
      (by norm_num)).2.2.2.2 ([1, 1])⟩

-- ==== C5 ====
/-- C5 counterexample: frame 50,50,50 arrives, Zero is pressed, then a tick
writes a row: its w/o-Zero columns hold 100 while the raw reading was 50. -/
theorem woZeroNotAlwaysRaw :
    (on_btnStart_clicked 10 1 true initialState).1 = runningState 0 10 ∧
    (tickTimer 0 (on_btnZero_clicked (readData frameRaw505050 (runningState 0 10)))).lastRaw =
      some (50, 50, 50) ∧
    firstFileRows (tickTimer 0 (on_btnZero_clicked (readData frameRaw505050 (runningState 0 10)))) =
      some [⟨50, 50, 50, 100, 100, 100⟩] ∧
    ¬ (100 : Int) = 50 := by
  refine ⟨?_, by decide, by decide, by decide⟩
  rw [start_pos_idle 10 1 10 (by norm_num) (by norm_num)
    (qRound_toNat_eq ((10:ℚ) * 1) 10 (by norm_num) (by norm_num) (by norm_num)).symm]

/-- C5 amended: the w/o-Zero columns of a written row equal the raw readings
of the last parsed frame whenever the zero offsets are unchanged since that
frame — in particular when only ticks happen between the frame and the write. -/
theorem woZeroRawWhenFresh (s : AppState) (input : List Char) (bl tl tr : Int)
    (ids : List Nat) (h : parseFrame input = some (bl, tl, tr)) :
    (currentRow (applyTicks ids (readData input s))).topLeftWoZero = tl ∧
    (currentRow (applyTicks ids (readData input s))).topRightWoZero = tr ∧
    (currentRow (applyTicks ids (readData input s))).botLeftWoZero = bl := by
  obtain ⟨z1, z2, z3, d1, d2, d3, _⟩ :=
    sensorPart_fields (applyTicks_sensorPart ids (readData input s))
  have e1 : (readData input s).dispTopLeft = tl - s.zeroTopLeft := by rw [readData, h]
  have e2 : (readData input s).dispTopRight = tr - s.zeroTopRight := by rw [readData, h]
  have e3 : (readData input s).dispBotLeft = bl - s.zeroBotLeft := by rw [readData, h]
  have f1 : (readData input s).zeroTopLeft = s.zeroTopLeft := by rw [readData, h]
  have f2 : (readData input s).zeroTopRight = s.zeroTopRight := by rw [readData, h]
  have f3 : (readData input s).zeroBotLeft = s.zeroBotLeft := by rw [readData, h]
  refine ⟨?_, ?_, ?_⟩ <;>
    simp only [currentRow, d1, d2, d3, z1, z2, z3, e1, e2, e3, f1, f2, f3] <;> omega

theorem woZeroRawWhenFreshInst :
    (currentRow (applyTicks ([0]) (readData frameRaw505050 initialState))).topLeftWoZero = 50 ∧
    (currentRow (applyTicks ([0]) (readData frameRaw505050 initialState))).topRightWoZero = 50 ∧
    (currentRow (applyTicks ([0]) (readData frameRaw505050 initialState))).botLeftWoZero = 50 :=
  woZeroRawWhenFresh initialState frameRaw505050 50 50 50 ([0]) (by decide)

end UltrasoundGui
